import Mathlib

/-!
Verification of the Conversation Escalation & Handoff Core
(`src/core/models.py`, `src/core/escalation_engine.py`,
`src/core/conversation_tracker.py`, `src/core/handoff_manager.py`,
`src/core/tracking_processor.py`).

Numeric scores are embedded as exact rationals (the spec's decimal
constants); timestamps (`datetime.utcnow()`) are embedded as natural
numbers supplied by the caller, monotone along a run.
-/

set_option maxRecDepth 8000

namespace SmartAgent

/-- `SentimentLabel` enum from `models.py`. -/
inductive SentimentLabel
  | positive
  | neutral
  | negative
  | frustrated
  | angry
deriving DecidableEq, Repr

/-- `IntentCategory` enum from `models.py`. -/
inductive IntentCategory
  | greeting
  | trip_inquiry
  | faq_query
  | complaint
  | payment_issue
  | safety_concern
  | fraud_report
  | harassment
  | account_issue
  | escalation_request
  | confusion
  | repeat_query
  | appreciation
  | farewell
  | other
deriving DecidableEq, Repr

/-- `HandoffTrigger` enum from `models.py`. -/
inductive HandoffTrigger
  | explicit_request
  | high_frustration
  | repeated_queries
  | fraud_detection
  | safety_emergency
  | harassment_report
  | tool_failures
  | confidence_threshold
  | bot_stuck
  | long_conversation
deriving DecidableEq, Repr

/-- `HandoffPriority` enum from `models.py`. -/
inductive HandoffPriority
  | urgent
  | high
  | medium
  | low
deriving DecidableEq, Repr

/-- `HandoffStatus` enum from `models.py`. -/
inductive HandoffStatus
  | queued
  | assigned
  | in_progress
  | completed
  | abandoned
  | cancelled
deriving DecidableEq, Repr

/-- `NLUResult` from `models.py` (the `entities` dict, unread by any code
modelled here, is omitted). -/
structure NLUResult where
  intent : IntentCategory
  intent_confidence : ℚ
  sentiment : SentimentLabel
  sentiment_score : ℚ
  is_repeat_query : Bool
  similarity_to_previous : ℚ
deriving DecidableEq, Repr

/-- `ConversationTurn` from `models.py` (uuid, timestamp and tool-result
payload fields unread by the modelled code are omitted). -/
structure ConversationTurn where
  role : String
  content : String
  nlu_result : Option NLUResult
deriving DecidableEq, Repr

/-- `ActionTaken` from `models.py`. -/
structure ActionTaken where
  action : String
  description : String
  success : Bool
deriving DecidableEq, Repr

/-- The engine's factor map. The source keeps the six factors in the dict
`factors` with the fixed keys of `EscalationEngine.WEIGHTS`; a structure
with one field per key is the shallow embedding of that fixed-key dict. -/
structure Factors where
  repetition : ℚ
  sentiment : ℚ
  high_risk_intent : ℚ
  tool_failures : ℚ
  turn_count : ℚ
  explicit_request : ℚ
deriving DecidableEq, Repr

/-- `ConversationState` from `models.py`. `escalation_factors` starts as an
empty dict in the source, embedded as `none`. -/
structure ConversationState where
  call_id : String
  room_name : String
  turns : List ConversationTurn
  turn_count : Nat
  current_sentiment : SentimentLabel
  sentiment_score : ℚ
  sentiment_history : List ℚ
  sentiment_trend : String
  intent_history : List IntentCategory
  current_intent : Option IntentCategory
  high_risk_intents_detected : List IntentCategory
  query_history : List String
  repeat_count : Nat
  last_repeated_query : Option String
  tool_calls_made : List String
  tool_success_count : Nat
  tool_failure_count : Nat
  actions_taken : List ActionTaken
  escalation_confidence : ℚ
  escalation_factors : Option Factors
  escalation_triggered : Bool
  escalation_trigger : Option HandoffTrigger
  started_at : Nat
  last_activity_at : Nat
deriving DecidableEq, Repr

/-- Fresh state as built by `ConversationTracker.create_conversation`. -/
def initState (call room : String) : ConversationState where
  call_id := call
  room_name := room
  turns := []
  turn_count := 0
  current_sentiment := .neutral
  sentiment_score := 0
  sentiment_history := []
  sentiment_trend := "stable"
  intent_history := []
  current_intent := none
  high_risk_intents_detected := []
  query_history := []
  repeat_count := 0
  last_repeated_query := none
  tool_calls_made := []
  tool_success_count := 0
  tool_failure_count := 0
  actions_taken := []
  escalation_confidence := 0
  escalation_factors := none
  escalation_triggered := false
  escalation_trigger := none
  started_at := 0
  last_activity_at := 0

/-! ## Escalation engine (`escalation_engine.py`) -/

/-- `EscalationEngine.WEIGHTS` (dict factor name → weight). -/
def WEIGHTS : Factors where
  repetition := 0.20
  sentiment := 0.20
  high_risk_intent := 0.25
  tool_failures := 0.10
  turn_count := 0.10
  explicit_request := 0.15

def AUTO_ESCALATE_THRESHOLD : ℚ := 0.75

def PREPARE_HANDOFF_THRESHOLD : ℚ := 0.55

/-- `EscalationEngine.HIGH_RISK_INTENTS`. -/
def HIGH_RISK_INTENTS : List IntentCategory :=
  [.complaint, .payment_issue, .account_issue, .escalation_request]

/-- The per-intent arm of the loop in
`EscalationEngine._check_immediate_escalation`: which trigger an
immediate-escalation intent maps to. -/
def immediateTriggerFor : IntentCategory → Option HandoffTrigger
  | .safety_concern => some .safety_emergency
  | .harassment => some .harassment_report
  | .fraud_report => some .fraud_detection
  | _ => none

/-- `EscalationEngine._check_immediate_escalation`: first intent in
`high_risk_intents_detected` that is one of the three immediate ones wins. -/
def check_immediate_escalation (s : ConversationState) : Option HandoffTrigger :=
  s.high_risk_intents_detected.findSome? immediateTriggerFor

/-- `EscalationEngine._calc_repetition_factor`. -/
def calc_repetition_factor (s : ConversationState) : ℚ :=
  if s.repeat_count = 0 then 0
  else if s.repeat_count = 1 then 0.3
  else if s.repeat_count = 2 then 0.6
  else 1

/-- Current-sentiment contribution in `_calc_sentiment_factor` (the initial
assignments to the local `factor`). -/
def sentiment_base : SentimentLabel → ℚ
  | .angry => 0.8
  | .frustrated => 0.6
  | .negative => 0.3
  | .neutral => 0
  | .positive => 0

/-- Trend adjustment in `_calc_sentiment_factor`. -/
def sentiment_trend_adjust (trend : String) (f : ℚ) : ℚ :=
  if trend = "declining" then min 1 (f + 0.2)
  else if trend = "improving" then max 0 (f - 0.1)
  else f

/-- Historical-sentiment adjustment in `_calc_sentiment_factor`: with at
least three scores, a majority below -0.2 adds 0.2 (capped at 1). -/
def sentiment_history_adjust (hist : List ℚ) (f : ℚ) : ℚ :=
  if 3 ≤ hist.length ∧
      (0.5 : ℚ) < (hist.countP (fun x => decide (x < -0.2)) : ℚ) / (hist.length : ℚ) then
    min 1 (f + 0.2)
  else f

/-- `EscalationEngine._calc_sentiment_factor`. -/
def calc_sentiment_factor (s : ConversationState) : ℚ :=
  sentiment_history_adjust s.sentiment_history
    (sentiment_trend_adjust s.sentiment_trend (sentiment_base s.current_sentiment))

/-- `EscalationEngine._calc_intent_factor`. -/
def calc_intent_factor (s : ConversationState) : ℚ :=
  if s.high_risk_intents_detected = [] then
    match s.current_intent with
    | some i => if i ∈ HIGH_RISK_INTENTS then 0.4 else 0
    | none => 0
  else if 2 ≤ s.high_risk_intents_detected.length then 1
  else 0.7

/-- `EscalationEngine._calc_tool_failure_factor` (the Python locals `total_calls`
and `failure_rate` are inlined). -/
def calc_tool_failure_factor (s : ConversationState) : ℚ :=
  if s.tool_failure_count = 0 then 0
  else if s.tool_success_count + s.tool_failure_count = 0 then 0
  else if 2 ≤ s.tool_failure_count then
    min 1 ((s.tool_failure_count : ℚ) /
      ((s.tool_success_count + s.tool_failure_count : Nat) : ℚ) + 0.3)
  else
    (s.tool_failure_count : ℚ) /
      ((s.tool_success_count + s.tool_failure_count : Nat) : ℚ)

/-- `EscalationEngine._calc_turn_count_factor`. -/
def calc_turn_count_factor (s : ConversationState) : ℚ :=
  if s.turn_count ≤ 6 then 0
  else if s.turn_count ≤ 10 then ((s.turn_count : ℚ) - 6) / ((10 : ℚ) - 6) * 0.5
  else 1

/-- `EscalationEngine._calc_explicit_request_factor`. -/
def calc_explicit_request_factor (s : ConversationState) : ℚ :=
  if IntentCategory.escalation_request ∈ s.intent_history then 1 else 0

/-- The factor dict assembled by steps 2-7 of `compute_confidence`. -/
def computeFactors (s : ConversationState) : Factors where
  repetition := calc_repetition_factor s
  sentiment := calc_sentiment_factor s
  high_risk_intent := calc_intent_factor s
  tool_failures := calc_tool_failure_factor s
  turn_count := calc_turn_count_factor s
  explicit_request := calc_explicit_request_factor s

/-- The weighted score `sum(factors[key] * weight for key, weight in WEIGHTS.items())`. -/
def weightedSum (f : Factors) : ℚ :=
  f.repetition * WEIGHTS.repetition + f.sentiment * WEIGHTS.sentiment +
    f.high_risk_intent * WEIGHTS.high_risk_intent +
    f.tool_failures * WEIGHTS.tool_failures +
    f.turn_count * WEIGHTS.turn_count +
    f.explicit_request * WEIGHTS.explicit_request

/-- The factor dict `{k: 1.0 for k in WEIGHTS}` of the immediate branch. -/
def allOneFactors : Factors := ⟨1, 1, 1, 1, 1, 1⟩

/-- `EscalationEngine._determine_trigger`: Python's `max(items, key=...)`
keeps the first item on ties, embedded as a fold that replaces the current
best only on a strictly larger value. -/
def determine_trigger (f : Factors) : HandoffTrigger :=
  let items : List (String × ℚ) :=
    [("repetition", f.repetition), ("sentiment", f.sentiment),
     ("high_risk_intent", f.high_risk_intent), ("tool_failures", f.tool_failures),
     ("turn_count", f.turn_count), ("explicit_request", f.explicit_request)]
  let best := items.foldl (fun b x => if b.2 < x.2 then x else b)
    ("repetition", f.repetition)
  match best.1 with
  | "explicit_request" => .explicit_request
  | "high_risk_intent" => .confidence_threshold
  | "repetition" => .repeated_queries
  | "sentiment" => .high_frustration
  | "tool_failures" => .tool_failures
  | "turn_count" => .long_conversation
  | _ => .confidence_threshold

/-- `EscalationEngine.compute_confidence`. Returns
(confidence, factor breakdown, trigger if any, updated state); the state
component records the in-place writes to `escalation_confidence` and
`escalation_factors`. -/
def compute_confidence (s : ConversationState) :
    ℚ × Factors × Option HandoffTrigger × ConversationState :=
  match check_immediate_escalation s with
  | some t =>
      (1, allOneFactors, some t,
        { s with escalation_confidence := 1, escalation_factors := some allOneFactors })
  | none =>
      let f := computeFactors s
      let confidence := weightedSum f
      let trigger : Option HandoffTrigger :=
        if AUTO_ESCALATE_THRESHOLD ≤ confidence then some (determine_trigger f) else none
      (confidence, f, trigger,
        { s with escalation_confidence := confidence, escalation_factors := some f })

/-- `EscalationEngine.get_priority`. -/
def get_priority (s : ConversationState) (trigger : HandoffTrigger) : HandoffPriority :=
  if trigger = .safety_emergency ∨ trigger = .harassment_report ∨
      trigger = .fraud_detection then .urgent
  else if trigger = .explicit_request then .high
  else if trigger = .high_frustration then
    if s.current_sentiment = .angry then .high else .medium
  else if trigger = .repeated_queries ∨ trigger = .tool_failures then .medium
  else .low

/-- `EscalationEngine.should_warn`. -/
def should_warn (s : ConversationState) : Bool :=
  PREPARE_HANDOFF_THRESHOLD ≤ s.escalation_confidence

/-- `EscalationEngine.should_escalate`. -/
def should_escalate (s : ConversationState) : Bool :=
  AUTO_ESCALATE_THRESHOLD ≤ s.escalation_confidence

/-- A rational lies in the unit interval. -/
def InUnit (x : ℚ) : Prop := 0 ≤ x ∧ x ≤ 1

/-- Concrete state exercising claim C1. -/
def stateC1 : ConversationState :=
  { initState "call-c1" "room-c1" with
      high_risk_intents_detected := [.safety_concern],
      intent_history := [.safety_concern],
      current_intent := some .safety_concern }

/-! ## Conversation tracker (`conversation_tracker.py`) -/

/-- `ConversationTracker.SIMILARITY_THRESHOLD`. -/
def SIMILARITY_THRESHOLD : ℚ := 0.7

/-- `ConversationTracker.INTENT_KEYWORDS` in source (dict insertion) order. -/
def INTENT_KEYWORDS : List (IntentCategory × List String) :=
  [(.escalation_request,
    ["agent", "human", "person", "manager", "supervisor", "speak to someone",
     "real person", "customer care", "support", "help me", "transfer",
     "connect me", "talk to", "want human", "need human", "real human",
     "एजेंट", "इंसान", "मैनेजर", "सुपरवाइजर", "कस्टमर केयर",
     "ह्यूमन", "बात करवाओ", "बात कराओ", "किसी से बात", "असली इंसान",
     "सपोर्ट", "मदद करो", "हेल्प", "ट्रांसफर", "कनेक्ट करो",
     "कस्टमर सर्विस", "सर्विस", "किसी को बुलाओ", "मैनेजर से बात"]),
   (.fraud_report,
    ["fraud", "scam", "cheat", "stolen", "hack", "unauthorized", "fake",
     "धोखा", "फ्रॉड", "चोरी", "हैक"]),
   (.harassment,
    ["harassment", "harass", "threaten", "abuse", "misbehave", "inappropriate",
     "उत्पीड़न", "धमकी", "गाली", "बदतमीजी"]),
   (.safety_concern,
    ["accident", "emergency", "unsafe", "danger", "hurt", "injured", "police",
     "दुर्घटना", "इमरजेंसी", "खतरा", "पुलिस", "चोट"]),
   (.complaint,
    ["complaint", "complain", "problem", "issue", "wrong", "bad", "terrible",
     "शिकायत", "समस्या", "गलत", "खराब"]),
   (.payment_issue,
    ["payment", "refund", "money", "charge", "deduct", "pay", "bill",
     "पेमेंट", "रिफंड", "पैसे", "चार्ज", "बिल"]),
   (.confusion,
    ["don't understand", "confused", "what", "how", "why", "explain",
     "समझ नहीं", "confused", "क्या", "कैसे", "क्यों"]),
   (.appreciation,
    ["thank", "thanks", "great", "helpful", "good", "nice", "appreciate",
     "धन्यवाद", "शुक्रिया", "अच्छा", "बढ़िया"])]

/-- `ConversationTracker.NEGATIVE_KEYWORDS`. -/
def NEGATIVE_KEYWORDS : List String :=
  ["angry", "frustrated", "annoyed", "upset", "terrible", "worst", "hate",
   "pathetic", "useless", "stupid", "waste", "never", "disgusted", "bad",
   "गुस्सा", "परेशान", "बकवास", "बेकार", "घटिया", "नाराज़",
   "गुस्से", "निराशा", "खराब", "बुरा", "चिढ़", "तंग", "थक",
   "पागल", "बर्बाद", "झूठ", "धोखा", "फालतू"]

/-- `ConversationTracker.POSITIVE_KEYWORDS`. -/
def POSITIVE_KEYWORDS : List String :=
  ["thank", "thanks", "great", "good", "nice", "helpful", "appreciate",
   "awesome", "excellent", "perfect", "love", "best",
   "धन्यवाद", "शुक्रिया", "अच्छा", "बढ़िया", "शानदार"]

/-- Python `str.lower()` (ASCII case fold; the inputs analysed here are ASCII
or Devanagari, which has no case). -/
def pyLower (t : String) : String := String.mk (t.toList.map Char.toLower)

/-- Whether `needle` is a leading segment of `hay`. -/
def leadsWith : List Char → List Char → Bool
  | [], _ => true
  | _ :: _, [] => false
  | a :: as, b :: bs => a == b && leadsWith as bs

/-- Occurrence of `needle` anywhere in `hay`. -/
def hasSub (needle : List Char) : List Char → Bool
  | [] => needle.isEmpty
  | c :: rest => leadsWith needle (c :: rest) || hasSub needle rest

/-- Substring containment, Python's `needle in haystack`. -/
def containsSub (hay : List Char) (needle : String) : Bool :=
  hasSub needle.toList hay

/-- Intent scan of `ConversationTracker._analyze_turn`: categories in
declaration order, first category with any keyword occurring in the
lowercased content wins with confidence 0.8, else OTHER with 0.5. -/
def detectIntent (contentLower : List Char) : IntentCategory × ℚ :=
  match INTENT_KEYWORDS.find? (fun ck => ck.2.any (fun kw =>
      containsSub contentLower (pyLower kw))) with
  | some ck => (ck.1, 0.8)
  | none => (.other, 0.5)

/-- `ConversationTracker._analyze_sentiment`. `content` is whatever the
caller passes (the source always passes the lowercased turn). Returns
(label, score). -/
def analyze_sentiment (content : String) (s : ConversationState) :
    SentimentLabel × ℚ :=
  let cs := content.toList
  let negative_count := NEGATIVE_KEYWORDS.countP (fun kw => containsSub cs (pyLower kw))
  let positive_count := POSITIVE_KEYWORDS.countP (fun kw => containsSub cs (pyLower kw))
  let exclamation_count := cs.countP (fun c => c = '!')
  let caps_ratio : ℚ := (cs.countP Char.isUpper : ℚ) / ((max cs.length 1 : Nat) : ℚ)
  let base0 : ℚ :=
    if positive_count < negative_count then -0.3 * negative_count
    else if negative_count < positive_count then 0.3 * positive_count
    else 0
  let base1 := if 2 ≤ exclamation_count then base0 - 0.2 else base0
  let base2 := if (0.5 : ℚ) < caps_ratio then base1 - 0.3 else base1
  let last5 := s.sentiment_history.drop (s.sentiment_history.length - 5)
  let base3 :=
    if s.sentiment_history ≠ [] ∧ last5.sum / (last5.length : ℚ) < -0.3 then base2 - 0.1
    else base2
  let score := max (-1) (min 1 base3)
  let label :=
    if score ≤ -0.6 then SentimentLabel.angry
    else if score ≤ -0.3 then .frustrated
    else if score < -0.1 then .negative
    else if score ≤ 0.3 then .neutral
    else .positive
  (label, score)

/-- Word characters for `re.sub(r'[^\w\s]', ...)`: alphanumerics, underscore,
and (as in Python's unicode-aware `\w`) non-ASCII letters. -/
def isWordChar (c : Char) : Bool := c.isAlphanum || c = '_' || 127 < c.toNat

/-- Collapse whitespace runs to a single space (`re.sub(r'\s+', ' ', ...)`).
The boolean records whether the previous kept character was a space. -/
def collapseWs : List Char → Bool → List Char
  | [], _ => []
  | c :: t, prev =>
      if c.isWhitespace then
        if prev then collapseWs t true else ' ' :: collapseWs t true
      else c :: collapseWs t false

/-- `ConversationTracker._clean_for_comparison`: lowercase, drop
non-word/non-space characters, collapse whitespace, strip. -/
def clean_for_comparison (t : String) : List Char :=
  let low := t.toList.map Char.toLower
  let kept := low.filter (fun c => isWordChar c || c.isWhitespace)
  let coll := collapseWs kept false
  ((coll.dropWhile (fun c => c = ' ')).reverse.dropWhile (fun c => c = ' ')).reverse

/-- One row update of the longest-common-subsequence dynamic program:
`prev` is the previous row from column j-1 on, `left` the value just
computed in the current row. -/
def lcsGo (c : Char) : List Char → List Nat → Nat → List Nat
  | [], _, _ => []
  | b :: bs, prev, left =>
      let diag := prev.headD 0
      let up := (prev.drop 1).headD 0
      let cur := if c = b then diag + 1 else max up left
      cur :: lcsGo c bs (prev.drop 1) cur

/-- Length of a longest common subsequence, by the standard row-by-row
dynamic program. -/
def lcsLen (a b : List Char) : Nat :=
  (a.foldl (fun prev c => 0 :: lcsGo c b prev 0) (List.replicate (b.length + 1) 0)).getLastD 0

/-- Similarity of two cleaned strings. The source uses
`difflib.SequenceMatcher(None, x, y).ratio()` (Python standard library,
outside this repository): `2 * M / T` where `M` counts matched characters
and `T` is the total length, `1.0` when both strings are empty. The spec
fixes the same `2·LCS/T` shape (\"longest-common-subsequence-based
similarity\") and declares any such deterministic ratio acceptable; the
embedding uses the LCS count for `M`. On the inputs settled here (equal
strings, and pairs with total matched length below threshold) the two
coincide. -/
def similarityRatio (a b : List Char) : ℚ :=
  if a.length + b.length = 0 then 1
  else (2 * lcsLen a b : ℚ) / ((a.length + b.length : Nat) : ℚ)

/-- `ConversationTracker._check_repetition`: max similarity against the last
up to 10 previous normalized queries; repeat iff it reaches 0.7. -/
def check_repetition (s : ConversationState) (content : String) : Bool × ℚ :=
  if s.query_history = [] then (false, 0)
  else
    let content_clean := clean_for_comparison content
    let lastTen := s.query_history.drop (s.query_history.length - 10)
    let max_similarity := lastTen.foldl
      (fun m q => max m (similarityRatio content_clean (clean_for_comparison q))) 0
    (decide (SIMILARITY_THRESHOLD ≤ max_similarity), max_similarity)

/-- `ConversationTracker._analyze_turn`: runs intent, sentiment and
repetition analysis; on a repeat it bumps `repeat_count`, records
`last_repeated_query`, and forces intent to REPEAT_QUERY when no category
matched. Returns the `NLUResult` and the mutated state. -/
def analyze_turn (s : ConversationState) (content : String) :
    NLUResult × ConversationState :=
  let content_lower := pyLower content
  let ic := detectIntent content_lower.toList
  let ss := analyze_sentiment content_lower s
  let rep := check_repetition s content_lower
  let s1 :=
    if rep.1 then
      { s with repeat_count := s.repeat_count + 1, last_repeated_query := some content }
    else s
  let intent := if rep.1 ∧ ic.1 = .other then IntentCategory.repeat_query else ic.1
  ({ intent := intent, intent_confidence := ic.2, sentiment := ss.1,
     sentiment_score := ss.2, is_repeat_query := rep.1,
     similarity_to_previous := rep.2 }, s1)

/-- `ConversationState.update_from_nlu` (`models.py`). -/
def update_from_nlu (s : ConversationState) (n : NLUResult) : ConversationState :=
  let s1 := { s with
    sentiment_score := n.sentiment_score,
    current_sentiment := n.sentiment,
    sentiment_history := s.sentiment_history ++ [n.sentiment_score] }
  let s2 :=
    if 3 ≤ s1.sentiment_history.length then
      let recent := s1.sentiment_history.drop (s1.sentiment_history.length - 3)
      if recent.getLastD 0 < recent.headD 0 - 0.2 then
        { s1 with sentiment_trend := "declining" }
      else if recent.headD 0 + 0.2 < recent.getLastD 0 then
        { s1 with sentiment_trend := "improving" }
      else { s1 with sentiment_trend := "stable" }
    else s1
  let s3 := { s2 with
    current_intent := some n.intent,
    intent_history := s2.intent_history ++ [n.intent] }
  let s4 :=
    if n.intent ∈ [IntentCategory.fraud_report, .harassment, .safety_concern,
        .escalation_request] then
      { s3 with high_risk_intents_detected := s3.high_risk_intents_detected ++ [n.intent] }
    else s3
  if n.is_repeat_query then { s4 with repeat_count := s4.repeat_count + 1 } else s4

/-- `ConversationState.add_turn` (`models.py`). -/
def state_add_turn (s : ConversationState) (role content : String)
    (nlu : Option NLUResult) (now : Nat) : ConversationState :=
  let s1 := { s with
    turns := s.turns ++ [{ role := role, content := content, nlu_result := nlu }],
    turn_count := s.turn_count + 1,
    last_activity_at := now }
  match nlu with
  | some n => update_from_nlu s1 n
  | none => s1

/-- `ConversationTracker.add_user_turn` (with `analyze=True`) for one live
conversation state. -/
def add_user_turn (s : ConversationState) (content : String) (now : Nat) :
    ConversationState :=
  let r := analyze_turn s content
  let s2 := state_add_turn r.2 "user" content (some r.1) now
  { s2 with query_history := s2.query_history ++ [(pyLower content).trim] }

/-! ## Handoff manager (`handoff_manager.py`)

`HandoffAlert` is embedded with the trigger/priority/status, queue, assignment
and timestamp fields the manager logic reads and writes. The descriptive
snapshot copies (driver info, summaries, suggested actions, copied turns),
which no modelled operation reads back, are omitted. The `uuid4` alert id is
modelled by a per-manager counter: the code relies only on ids being unique,
and the counter also records the enqueue order in which the queue-stability
statement is phrased. `datetime.utcnow()` is an explicit `now : Nat`
argument. -/

/-- The queue-relevant projection of `models.HandoffAlert`. -/
structure HandoffAlert where
  id : Nat
  call_id : String
  room_name : String
  trigger : HandoffTrigger
  priority : HandoffPriority
  status : HandoffStatus
  queue_position : Option Nat
  estimated_wait_seconds : Option Nat
  assigned_agent_id : Option String
  created_at : Nat
  assigned_at : Option Nat
  started_at : Option Nat
  completed_at : Option Nat
  resolution : Option String
deriving DecidableEq, Repr

/-- `HandoffQueue.PRIORITY_ORDER`. -/
def priorityRank : HandoffPriority → Nat
  | .urgent => 0
  | .high => 1
  | .medium => 2
  | .low => 3

/-- Strict comparison of the sort key `(PRIORITY_ORDER[priority], created_at)`. -/
def keyLt (a b : HandoffAlert) : Bool :=
  decide (priorityRank a.priority < priorityRank b.priority ∨
    (priorityRank a.priority = priorityRank b.priority ∧ a.created_at < b.created_at))

/-- Stable insertion: the new element goes after every element whose key is
less than or equal to its own. -/
def insertAfterLe (a : HandoffAlert) : List HandoffAlert → List HandoffAlert
  | [] => [a]
  | b :: t => if keyLt a b then a :: b :: t else b :: insertAfterLe a t

/-- `list.sort(key=lambda a: (PRIORITY_ORDER[...], a.created_at))`: Python's
sort is stable, so it is the insertion sort that processes elements in list
order and places each after all previously placed elements with key no
greater than its own. -/
def stableSortByKey (l : List HandoffAlert) : List HandoffAlert :=
  l.foldl (fun acc x => insertAfterLe x acc) []

/-- Position re-indexing (`HandoffQueue.add` / `_update_positions`):
`queue_position = index + 1`. -/
def setPositions : List HandoffAlert → Nat → List HandoffAlert
  | [], _ => []
  | a :: t, n => { a with queue_position := some n } :: setPositions t (n + 1)

/-- `HandoffQueue.add`: append, re-sort, re-index, and return the new
queue together with the added alert's 1-based position
(`self._queue.index(alert) + 1`; alerts are located by their unique id). -/
def queue_add (q : List HandoffAlert) (a : HandoffAlert) :
    List HandoffAlert × Nat :=
  (setPositions (stableSortByKey (q ++ [a])) 1,
    (setPositions (stableSortByKey (q ++ [a])) 1).findIdx (fun x => x.id == a.id) + 1)

/-- `HandoffQueue.remove`: drop the alert and re-index. -/
def queue_remove (q : List HandoffAlert) (aid : Nat) : List HandoffAlert :=
  setPositions (q.filter (fun x => !(x.id == aid))) 1

/-- `HandoffManager` state: the queue, the active (`call_id → alert`)
handoffs, the completed log, and the id counter. -/
structure ManagerState where
  queue : List HandoffAlert
  active : List HandoffAlert
  completed : List HandoffAlert
  next_id : Nat
deriving DecidableEq, Repr

def emptyManager : ManagerState := ⟨[], [], [], 0⟩

/-- `HandoffManager.WAIT_TIME_PER_POSITION`. -/
def WAIT_TIME_PER_POSITION : Nat := 60

/-- The `HandoffAlert(...)` construction inside `trigger_handoff`
(status QUEUED, `created_at` = now, queue fields unset). -/
def new_alert (m : ManagerState) (s : ConversationState)
    (trigger : HandoffTrigger) (priority : HandoffPriority) (now : Nat) :
    HandoffAlert :=
  { id := m.next_id, call_id := s.call_id, room_name := s.room_name,
    trigger := trigger, priority := priority, status := .queued,
    queue_position := none, estimated_wait_seconds := none,
    assigned_agent_id := none, created_at := now, assigned_at := none,
    started_at := none, completed_at := none, resolution := none }

/-- The in-place `alert.estimated_wait_seconds = w` seen through the queue:
the queued alert is the same object the manager just added, located by id. -/
def waitUpdate (aid w : Nat) (x : HandoffAlert) : HandoffAlert :=
  if x.id == aid then { x with estimated_wait_seconds := some w } else x

/-- The queue effect of `trigger_handoff`: `queue.add(alert)` followed by
`alert.estimated_wait_seconds = position * WAIT_TIME_PER_POSITION`. -/
def trigger_queue_update (q : List HandoffAlert) (a0 : HandoffAlert) :
    List HandoffAlert :=
  (queue_add q a0).1.map
    (waitUpdate a0.id ((queue_add q a0).2 * WAIT_TIME_PER_POSITION))

/-- `HandoffManager.trigger_handoff`: build the alert (status QUEUED), add it
to the queue, set `estimated_wait_seconds = position * 60` on the queued
alert, and mark the conversation state escalated. Returns the alert as the
caller observes it, the new manager state, and the mutated conversation
state. It performs no check of `state.escalation_triggered`. -/
def trigger_handoff (m : ManagerState) (s : ConversationState)
    (trigger : HandoffTrigger) (priority : HandoffPriority) (now : Nat) :
    HandoffAlert × ManagerState × ConversationState :=
  let alert0 := new_alert m s trigger priority now
  let q2 := trigger_queue_update m.queue alert0
  let s1 := { s with escalation_triggered := true, escalation_trigger := some trigger }
  let alertOut := (q2.find? (fun x => x.id == alert0.id)).getD alert0
  (alertOut, { m with queue := q2, next_id := m.next_id + 1 }, s1)

/-- Lookup in `_active_handoffs` by alert id (the dict is keyed by call id;
every manager operation that reads it scans for a matching alert id). -/
def findActive (m : ManagerState) (aid : Nat) : Option HandoffAlert :=
  m.active.find? (fun a => a.id == aid)

/-- `HandoffManager.assign_agent`: remove from queue, transition to
ASSIGNED, move into the active index. `none` if the queue has no such id. -/
def assign_agent (m : ManagerState) (aid : Nat) (agent : String) (now : Nat) :
    Option HandoffAlert × ManagerState :=
  match m.queue.find? (fun a => a.id == aid) with
  | none => (none, m)
  | some alert =>
      let alert1 := { alert with
        status := .assigned,
        assigned_agent_id := some agent, assigned_at := some now }
      (some alert1,
        { m with queue := queue_remove m.queue aid, active := m.active ++ [alert1] })

/-- Error kinds surfaced by manager operations (`ValueError`s and the token
minter's exception in the source). -/
inductive HandoffError
  | notFound
  | invalidState
  | externalFailure (msg : String)
deriving DecidableEq, Repr

/-- The transfer-info dict returned by `start_handoff_call`. -/
structure TransferInfo where
  alert_id : Nat
  call_id : String
  room_name : String
  agent_id : Option String
  livekit_token : String
deriving DecidableEq, Repr

/-- `HandoffManager.start_handoff_call`. The external token minter
(`generate_agent_token`, which signs a JWT from process settings) is passed
in as its outcome: `.ok token` or `.error msg` when it raises. Faithful to
the source, the alert is moved to IN_PROGRESS and `started_at` is set
*before* the minter is consulted, so a minter failure propagates after the
mutation has happened. Returns the outcome and the manager state after the
call. -/
def start_handoff_call (m : ManagerState) (aid : Nat) (now : Nat)
    (minter : Except String String) :
    Except HandoffError TransferInfo × ManagerState :=
  match findActive m aid with
  | none => (.error .notFound, m)
  | some alert =>
      if alert.status ≠ HandoffStatus.assigned then (.error .invalidState, m)
      else
        let alert1 := { alert with status := .in_progress, started_at := some now }
        let m1 := { m with active := m.active.map (fun x => if x.id == aid then alert1 else x) }
        match minter with
        | .error e => (.error (.externalFailure e), m1)
        | .ok token =>
            (.ok { alert_id := alert.id, call_id := alert.call_id,
                   room_name := alert.room_name, agent_id := alert.assigned_agent_id,
                   livekit_token := token }, m1)

/-- `HandoffManager.complete_handoff`: looks for the alert in the *active*
index only; found → COMPLETED, `completed_at`, moved to the completed log;
otherwise a logged no-op. -/
def complete_handoff (m : ManagerState) (aid : Nat) (now : Nat)
    (resolution : Option String) : ManagerState :=
  match findActive m aid with
  | none => m
  | some alert =>
      { m with
        active := m.active.filter (fun x => !(x.id == aid)),
        completed := m.completed ++
          [{ alert with
             status := .completed, completed_at := some now,
             resolution := resolution }] }

/-! ## Tracking processor (`tracking_processor.py`) -/

/-- `ConversationTrackingProcessor._trigger_handoff`: sets the processor's
local `_handoff_triggered` flag, derives priority from the engine, and calls
the manager. Returns (flag, conversation state, manager state). -/
def processor_trigger_handoff (s : ConversationState) (t : HandoffTrigger)
    (m : ManagerState) (now : Nat) : Bool × ConversationState × ManagerState :=
  let prio := get_priority s t
  let r := trigger_handoff m s t prio now
  (true, r.2.2, r.2.1)

/-- `ConversationTrackingProcessor._check_escalation`: a no-op once the
processor's `_handoff_triggered` flag is set; otherwise one engine compute,
escalating when a trigger is reported and the confidence just written
reaches the auto-escalate threshold. -/
def check_escalation (handoff_triggered : Bool) (s : ConversationState)
    (m : ManagerState) (now : Nat) : Bool × ConversationState × ManagerState :=
  if handoff_triggered then (handoff_triggered, s, m)
  else
    let r := compute_confidence s
    match r.2.2.1 with
    | some t =>
        if should_escalate r.2.2.2 then processor_trigger_handoff r.2.2.2 t m now
        else (false, r.2.2.2, m)
    | none => (false, r.2.2.2, m)

/-! ## Queue mutation sequences

The queue-consistency claim quantifies over arbitrary sequences of manager
mutations: enqueues via `trigger_handoff` and removals via `assign_agent`.
`MgrOp` records one such call with the wall-clock instant at which it runs;
`okOps` states that the clock is monotone along the run (in the source,
`created_at` comes from `datetime.utcnow()`, non-decreasing per manager). -/

inductive MgrOp
  | trig (call room : String) (t : HandoffTrigger) (p : HandoffPriority) (now : Nat)
  | assign (aid : Nat) (agent : String) (now : Nat)

/-- The instant at which an operation runs. -/
def opNow : MgrOp → Nat
  | .trig _ _ _ _ n => n
  | .assign _ _ n => n

/-- Apply one manager mutation. -/
def applyOp (m : ManagerState) : MgrOp → ManagerState
  | .trig call room t p now => (trigger_handoff m (initState call room) t p now).2.1
  | .assign aid agent now => (assign_agent m aid agent now).2

/-- Run a sequence of manager mutations. -/
def runOps (m : ManagerState) : List MgrOp → ManagerState
  | [] => m
  | op :: rest => runOps (applyOp m op) rest

/-- Clock monotonicity along an operation sequence, from lower bound `c`. -/
def okOps : Nat → List MgrOp → Bool
  | _, [] => true
  | c, op :: rest => decide (c ≤ opNow op) && okOps (opNow op) rest

/-- The order the queue must respect, claim C5's two conditions at once: a
pair earlier-before-later is non-decreasing in the sort key
`(priority_rank, created_at)`, and two alerts of equal priority appear in
enqueue order (alert ids are allocated from the manager's monotone counter,
so `id` order is enqueue order). -/
def queueRel (a b : HandoffAlert) : Prop :=
  (priorityRank a.priority < priorityRank b.priority ∨
    (priorityRank a.priority = priorityRank b.priority ∧ a.created_at ≤ b.created_at)) ∧
  (priorityRank a.priority = priorityRank b.priority → a.id < b.id)

/-- Manager invariant at clock bound `c`: the queue is ordered by `queueRel`,
ids are below the allocation counter, creation times are below the clock,
and the stored `queue_position` values are exactly 1..N in queue order. -/
def QueueInv (c : Nat) (m : ManagerState) : Prop :=
  m.queue.Pairwise queueRel ∧
  (∀ a ∈ m.queue, a.id < m.next_id) ∧
  (∀ a ∈ m.queue, a.created_at ≤ c) ∧
  m.queue.map (fun a => a.queue_position) =
    (List.range' 1 m.queue.length).map some

/-- C5 witness operations, the spec's S6 scenario: enqueue A (MEDIUM),
B (URGENT), C (HIGH), D (MEDIUM), then assign B (alert id 1). -/
def opsC5 : List MgrOp :=
  [.trig "A" "rA" .repeated_queries .medium 1,
   .trig "B" "rB" .safety_emergency .urgent 2,
   .trig "C" "rC" .explicit_request .high 3,
   .trig "D" "rD" .repeated_queries .medium 4,
   .assign 1 "agent-1" 5]

/-! ## Scenario states -/

/-- C2 scenario: user says "hello". -/
def stateC2a : ConversationState :=
  add_user_turn (initState "c2" "room-c2") "hello" 1

/-- C2 scenario: escalation check after the first turn. -/
def checkC2a : Bool × ConversationState × ManagerState :=
  check_escalation false stateC2a emptyManager 1

/-- C2 scenario: user asks to be connected to a human agent. -/
def stateC2b : ConversationState :=
  add_user_turn checkC2a.2.1 "can you connect me to a human agent please" 2

/-- C2 scenario: escalation check after the second turn. -/
def checkC2b : Bool × ConversationState × ManagerState :=
  check_escalation checkC2a.1 stateC2b checkC2a.2.2 2

/-- C3 scenario: a state already marked escalated. -/
def stateC3 : ConversationState :=
  { initState "c3" "room-c3" with escalation_triggered := true }

/-- C3 scenario: first manager trigger on the already-escalated state. -/
def firstC3 : HandoffAlert × ManagerState × ConversationState :=
  trigger_handoff emptyManager stateC3 .explicit_request .high 1

/-- C3 scenario: second manager trigger on the same conversation. -/
def secondC3 : HandoffAlert × ManagerState × ConversationState :=
  trigger_handoff firstC3.2.1 firstC3.2.2 .explicit_request .high 2

/-- C4 scenario: an assigned alert in the active index. -/
def alertC4 : HandoffAlert :=
  { id := 0, call_id := "c4", room_name := "room-c4",
    trigger := .explicit_request, priority := .high, status := .assigned,
    queue_position := none, estimated_wait_seconds := none,
    assigned_agent_id := some "agent-7", created_at := 1, assigned_at := some 2,
    started_at := none, completed_at := none, resolution := none }

def mgrC4 : ManagerState := ⟨[], [alertC4], [], 1⟩

/-- C6 scenario: repeated utterance, turn 1. -/
def stateC6a : ConversationState :=
  add_user_turn (initState "c6" "room-c6") "where is my order" 1

def checkC6a : Bool × ConversationState × ManagerState :=
  check_escalation false stateC6a emptyManager 1

/-- C6 scenario: turn 2. -/
def stateC6b : ConversationState := add_user_turn checkC6a.2.1 "where is my order" 2

def checkC6b : Bool × ConversationState × ManagerState :=
  check_escalation checkC6a.1 stateC6b checkC6a.2.2 2

/-- C6 scenario: turn 3. -/
def stateC6c : ConversationState := add_user_turn checkC6b.2.1 "where is my order" 3

def checkC6c : Bool × ConversationState × ManagerState :=
  check_escalation checkC6b.1 stateC6c checkC6b.2.2 3

/-- C6 scenario: turn 4. -/
def stateC6d : ConversationState := add_user_turn checkC6c.2.1 "where is my order" 4

def checkC6d : Bool × ConversationState × ManagerState :=
  check_escalation checkC6c.1 stateC6d checkC6c.2.2 4

/-- C7 scenario: a fresh state. -/
def stateC7 : ConversationState := initState "c7" "room-c7"

/-- C8 scenario: a queued alert that never got assigned. -/
def alertC8 : HandoffAlert :=
  { id := 3, call_id := "c8", room_name := "room-c8",
    trigger := .repeated_queries, priority := .medium, status := .queued,
    queue_position := some 1, estimated_wait_seconds := some 60,
    assigned_agent_id := none, created_at := 1, assigned_at := none,
    started_at := none, completed_at := none, resolution := none }

def mgrC8queued : ManagerState := ⟨[alertC8], [], [], 4⟩

/-- C8 amended-claim witness: an active (assigned) alert. -/
def alertC8active : HandoffAlert := { alertC8 with
  id := 4, status := .assigned, queue_position := none,
  assigned_agent_id := some "agent-2", assigned_at := some 5 }

def mgrC8active : ManagerState := ⟨[], [alertC8active], [], 5⟩

/-- Concrete state exercising claim C9's non-immediate path. -/
def stateC9 : ConversationState :=
  { initState "call-c9" "room-c9" with
      repeat_count := 2, turn_count := 8, current_sentiment := .frustrated }

/-! ## Theorems -/

/-! ## Engine theorems -/

theorem repetition_factor_in_unit (s : ConversationState) :
    InUnit (calc_repetition_factor s) := by
  unfold InUnit calc_repetition_factor
  split_ifs <;> norm_num

theorem unit_min_cap (x : ℚ) (hx : 0 ≤ x) : InUnit (min 1 (x + 0.2)) :=
  ⟨le_min (by norm_num) (by linarith), min_le_left _ _⟩

theorem unit_max_floor (x : ℚ) (hx : x ≤ 1) : InUnit (max 0 (x - 0.1)) :=
  ⟨le_max_left _ _, max_le (by norm_num) (by linarith)⟩

theorem sentiment_base_in_unit (l : SentimentLabel) : InUnit (sentiment_base l) := by
  cases l <;> exact ⟨by norm_num [sentiment_base], by norm_num [sentiment_base]⟩

theorem sentiment_trend_adjust_in_unit (t : String) (f : ℚ) (hf : InUnit f) :
    InUnit (sentiment_trend_adjust t f) := by
  unfold sentiment_trend_adjust
  split_ifs
  · exact unit_min_cap f hf.1
  · exact unit_max_floor f hf.2
  · exact hf

theorem sentiment_history_adjust_in_unit (h : List ℚ) (f : ℚ) (hf : InUnit f) :
    InUnit (sentiment_history_adjust h f) := by
  unfold sentiment_history_adjust
  split_ifs
  · exact unit_min_cap f hf.1
  · exact hf

theorem sentiment_factor_in_unit (s : ConversationState) :
    InUnit (calc_sentiment_factor s) :=
  sentiment_history_adjust_in_unit _ _
    (sentiment_trend_adjust_in_unit _ _ (sentiment_base_in_unit _))

theorem intent_factor_in_unit (s : ConversationState) :
    InUnit (calc_intent_factor s) := by
  unfold InUnit calc_intent_factor
  cases s.current_intent with
  | none => split_ifs <;> norm_num
  | some i => dsimp only; split_ifs <;> norm_num

theorem tool_failure_factor_in_unit (s : ConversationState) :
    InUnit (calc_tool_failure_factor s) := by
  unfold InUnit calc_tool_failure_factor
  by_cases h0 : s.tool_failure_count = 0
  · rw [if_pos h0]
    norm_num
  · have htot : ¬ s.tool_success_count + s.tool_failure_count = 0 := by omega
    have hpos : (0 : ℚ) < ((s.tool_success_count + s.tool_failure_count : Nat) : ℚ) := by
      exact_mod_cast Nat.pos_of_ne_zero htot
    have hrate0 : (0 : ℚ) ≤ (s.tool_failure_count : ℚ) /
        ((s.tool_success_count + s.tool_failure_count : Nat) : ℚ) :=
      div_nonneg (by positivity) hpos.le
    have hrate1 : (s.tool_failure_count : ℚ) /
        ((s.tool_success_count + s.tool_failure_count : Nat) : ℚ) ≤ 1 := by
      rw [div_le_one hpos]
      exact_mod_cast Nat.le_add_left _ _
    rw [if_neg h0, if_neg htot]
    by_cases h2 : 2 ≤ s.tool_failure_count
    · rw [if_pos h2]
      exact ⟨le_min (by norm_num) (by linarith), min_le_left _ _⟩
    · rw [if_neg h2]
      exact ⟨hrate0, hrate1⟩

theorem turn_count_factor_in_unit (s : ConversationState) :
    InUnit (calc_turn_count_factor s) := by
  unfold InUnit calc_turn_count_factor
  split_ifs with h0 h1 <;> try norm_num
  have l7 : (7 : ℚ) ≤ (s.turn_count : ℚ) := by
    have : 7 ≤ s.turn_count := by omega
    exact_mod_cast this
  have l10 : (s.turn_count : ℚ) ≤ 10 := by exact_mod_cast h1
  constructor
  · have : (0 : ℚ) ≤ (s.turn_count : ℚ) - 6 := by linarith
    positivity
  · nlinarith

theorem explicit_request_factor_in_unit (s : ConversationState) :
    InUnit (calc_explicit_request_factor s) := by
  unfold InUnit calc_explicit_request_factor
  split_ifs <;> norm_num

theorem weightedSum_in_unit (f : Factors) (h1 : InUnit f.repetition)
    (h2 : InUnit f.sentiment) (h3 : InUnit f.high_risk_intent)
    (h4 : InUnit f.tool_failures) (h5 : InUnit f.turn_count)
    (h6 : InUnit f.explicit_request) : InUnit (weightedSum f) := by
  obtain ⟨a0, a1⟩ := h1
  obtain ⟨b0, b1⟩ := h2
  obtain ⟨c0, c1⟩ := h3
  obtain ⟨d0, d1⟩ := h4
  obtain ⟨e0, e1⟩ := h5
  obtain ⟨g0, g1⟩ := h6
  unfold weightedSum WEIGHTS
  constructor
  · simp only
    positivity
  · simp only
    nlinarith

/-- Claim C9: the six engine weights sum to exactly 1.00, and outside the
immediate-escalation override `compute_confidence` returns the weighted sum
of the six factors, each factor lies in [0, 1], and so does the returned
confidence. -/
theorem engine_weights_sum_and_confidence_bounds :
    (WEIGHTS.repetition + WEIGHTS.sentiment + WEIGHTS.high_risk_intent +
        WEIGHTS.tool_failures + WEIGHTS.turn_count + WEIGHTS.explicit_request = 1) ∧
      ∀ s : ConversationState, check_immediate_escalation s = none →
        (compute_confidence s).1 = weightedSum (computeFactors s) ∧
          (compute_confidence s).2.1 = computeFactors s ∧
          InUnit (computeFactors s).repetition ∧
          InUnit (computeFactors s).sentiment ∧
          InUnit (computeFactors s).high_risk_intent ∧
          InUnit (computeFactors s).tool_failures ∧
          InUnit (computeFactors s).turn_count ∧
          InUnit (computeFactors s).explicit_request ∧
          InUnit (compute_confidence s).1 := by
  refine ⟨by norm_num [WEIGHTS], ?_⟩
  intro s h
  have hrep := repetition_factor_in_unit s
  have hsen := sentiment_factor_in_unit s
  have hint := intent_factor_in_unit s
  have htool := tool_failure_factor_in_unit s
  have hturn := turn_count_factor_in_unit s
  have hexp := explicit_request_factor_in_unit s
  have hfs : computeFactors s =
      ⟨calc_repetition_factor s, calc_sentiment_factor s, calc_intent_factor s,
        calc_tool_failure_factor s, calc_turn_count_factor s,
        calc_explicit_request_factor s⟩ := rfl
  have hconf : (compute_confidence s).1 = weightedSum (computeFactors s) := by
    unfold compute_confidence
    rw [h]
  have hfac : (compute_confidence s).2.1 = computeFactors s := by
    unfold compute_confidence
    rw [h]
  refine ⟨hconf, hfac, hrep, hsen, hint, htool, hturn, hexp, ?_⟩
  rw [hconf]
  exact weightedSum_in_unit _ hrep hsen hint htool hturn hexp

/-- Lemma: the state written back by `compute_confidence`. -/
theorem compute_confidence_state_eq (s : ConversationState) :
    (compute_confidence s).2.2.2 =
      { s with escalation_confidence := (compute_confidence s).1,
               escalation_factors := some (compute_confidence s).2.1 } := by
  unfold compute_confidence
  cases check_immediate_escalation s <;> rfl

/-- Claim C10: `compute_confidence` writes only `escalation_confidence` and
`escalation_factors`; every other field of the conversation state is
unchanged by the call. -/
theorem compute_confidence_frame (s : ConversationState) :
    ((compute_confidence s).2.2.2).call_id = s.call_id ∧
    ((compute_confidence s).2.2.2).room_name = s.room_name ∧
    ((compute_confidence s).2.2.2).turns = s.turns ∧
    ((compute_confidence s).2.2.2).turn_count = s.turn_count ∧
    ((compute_confidence s).2.2.2).current_sentiment = s.current_sentiment ∧
    ((compute_confidence s).2.2.2).sentiment_score = s.sentiment_score ∧
    ((compute_confidence s).2.2.2).sentiment_history = s.sentiment_history ∧
    ((compute_confidence s).2.2.2).sentiment_trend = s.sentiment_trend ∧
    ((compute_confidence s).2.2.2).intent_history = s.intent_history ∧
    ((compute_confidence s).2.2.2).current_intent = s.current_intent ∧
    ((compute_confidence s).2.2.2).high_risk_intents_detected =
      s.high_risk_intents_detected ∧
    ((compute_confidence s).2.2.2).query_history = s.query_history ∧
    ((compute_confidence s).2.2.2).repeat_count = s.repeat_count ∧
    ((compute_confidence s).2.2.2).last_repeated_query = s.last_repeated_query ∧
    ((compute_confidence s).2.2.2).tool_calls_made = s.tool_calls_made ∧
    ((compute_confidence s).2.2.2).tool_success_count = s.tool_success_count ∧
    ((compute_confidence s).2.2.2).tool_failure_count = s.tool_failure_count ∧
    ((compute_confidence s).2.2.2).actions_taken = s.actions_taken ∧
    ((compute_confidence s).2.2.2).escalation_triggered = s.escalation_triggered ∧
    ((compute_confidence s).2.2.2).escalation_trigger = s.escalation_trigger ∧
    ((compute_confidence s).2.2.2).started_at = s.started_at ∧
    ((compute_confidence s).2.2.2).last_activity_at = s.last_activity_at := by
  rw [compute_confidence_state_eq]
  exact ⟨rfl, rfl, rfl, rfl, rfl, rfl, rfl, rfl, rfl, rfl, rfl, rfl, rfl, rfl,
    rfl, rfl, rfl, rfl, rfl, rfl, rfl, rfl⟩

/-- Claim C1: an immediate-escalation intent in `high_risk_intents_detected`
pins confidence to 1.0 and every factor to 1.0, and the returned trigger is
the categorical trigger matching an immediate-escalation intent present in
the list (SAFETY_CONCERN → SAFETY_EMERGENCY, HARASSMENT → HARASSMENT_REPORT,
FRAUD_REPORT → FRAUD_DETECTION, per `immediateTriggerFor`). -/
theorem immediate_escalation_override (s : ConversationState) (i : IntentCategory)
    (hmem : i ∈ s.high_risk_intents_detected)
    (himm : (immediateTriggerFor i).isSome) :
    (compute_confidence s).1 = 1 ∧
      (compute_confidence s).2.1 = allOneFactors ∧
      ∃ j t, j ∈ s.high_risk_intents_detected ∧ immediateTriggerFor j = some t ∧
        (compute_confidence s).2.2.1 = some t := by
  have hne : check_immediate_escalation s ≠ none := by
    intro hnone
    have := (List.findSome?_eq_none_iff.mp hnone) i hmem
    rw [this] at himm
    simp at himm
  obtain ⟨t, ht⟩ := Option.ne_none_iff_exists'.mp hne
  obtain ⟨j, hj, hjt⟩ := List.exists_of_findSome?_eq_some ht
  refine ⟨?_, ?_, j, t, hj, hjt, ?_⟩ <;>
    · unfold compute_confidence
      rw [ht]

/-- Witness for C1: a state that reported SAFETY_CONCERN gets confidence 1,
pinned factors, and the SAFETY_EMERGENCY trigger. -/
theorem immediate_escalation_override_witness :
    IntentCategory.safety_concern ∈ stateC1.high_risk_intents_detected ∧
      (immediateTriggerFor .safety_concern).isSome ∧
      ((compute_confidence stateC1).1 = 1 ∧
        (compute_confidence stateC1).2.1 = allOneFactors ∧
        ∃ j t, j ∈ stateC1.high_risk_intents_detected ∧
          immediateTriggerFor j = some t ∧
          (compute_confidence stateC1).2.2.1 = some t) :=
  ⟨by decide, by decide,
    immediate_escalation_override stateC1 .safety_concern (by decide) (by decide)⟩

/-- Counterexample to claim C2: after the second user turn the engine
reports no trigger (confidence 0.325 < 0.75), the processor does not fire a
handoff, and the queue stays empty — no EXPLICIT_REQUEST alert is created. -/
theorem explicit_request_scenario_counterexample :
    stateC2b.current_intent = some .escalation_request ∧
      (compute_confidence stateC2b).2.2.1 = none ∧
      checkC2b.1 = false ∧ checkC2b.2.2.queue = [] := by
  refine ⟨by with_unfolding_all decide, by with_unfolding_all decide, by with_unfolding_all decide, by with_unfolding_all decide⟩

/-- Amended claim C2: on that conversation the engine computes confidence
13/40 = 0.325 (high-risk-intent factor 0.7, explicit-request factor 1.0,
others 0), below the 0.75 auto-escalate threshold, so no handoff fires and
the queue stays empty. Had an EXPLICIT_REQUEST handoff been triggered on
this state, its priority would be HIGH and the alert enqueued into an empty
queue would get queue_position 1 and estimated_wait_seconds 60. -/
theorem explicit_request_scenario_amended :
    (compute_confidence stateC2b).1 = 13 / 40 ∧
      (13 : ℚ) / 40 < AUTO_ESCALATE_THRESHOLD ∧
      (compute_confidence stateC2b).2.2.1 = none ∧
      checkC2b.2.2.queue = [] ∧
      get_priority stateC2b .explicit_request = .high ∧
      (trigger_handoff emptyManager stateC2b .explicit_request .high 2).1.queue_position =
        some 1 ∧
      (trigger_handoff emptyManager stateC2b .explicit_request
        .high 2).1.estimated_wait_seconds = some 60 := by
  refine ⟨by with_unfolding_all decide, by with_unfolding_all decide, by with_unfolding_all decide, by with_unfolding_all decide, by with_unfolding_all decide, by with_unfolding_all decide, by with_unfolding_all decide⟩

/-- Counterexample to claim C3: `trigger_handoff` invoked on a state whose
`escalation_triggered` is already true does not fail — it creates and
enqueues another alert (two alerts for the one conversation end up queued). -/
theorem trigger_handoff_twice_counterexample :
    stateC3.escalation_triggered = true ∧
      firstC3.2.2.escalation_triggered = true ∧
      secondC3.2.1.queue.length = 2 ∧
      secondC3.2.1.queue.map (fun a => a.call_id) = ["c3", "c3"] := by
  refine ⟨by with_unfolding_all decide, by with_unfolding_all decide, by with_unfolding_all decide, by with_unfolding_all decide⟩

/-- Amended claim C3: `trigger_handoff` itself performs no check of
`escalation_triggered` and will enqueue again; at-most-once triggering is
enforced only by the tracking processor, whose local `_handoff_triggered`
flag turns every later `_check_escalation` into a no-op. -/
theorem processor_check_escalation_at_most_once (s : ConversationState)
    (m : ManagerState) (now : Nat) :
    check_escalation true s m now = (true, s, m) := rfl

/-- Claim C4 at the failing input: when the token minter raises during
`start_handoff_call` on an ASSIGNED alert, the error is surfaced to the
caller, but the alert has already been moved to IN_PROGRESS with
`started_at` set — it is not kept in ASSIGNED state, contradicting the
claim's "no partial transition". -/
theorem start_handoff_call_minter_failure :
    (start_handoff_call mgrC4 0 5 (.error "mint failure")).1 =
        .error (.externalFailure "mint failure") ∧
      (start_handoff_call mgrC4 0 5 (.error "mint failure")).2.active.map
        (fun a => a.status) = [.in_progress] ∧
      (start_handoff_call mgrC4 0 5 (.error "mint failure")).2.active.map
        (fun a => a.started_at) = [some 5] := by
  refine ⟨by with_unfolding_all rfl, by with_unfolding_all decide,
    by with_unfolding_all decide⟩

/-- Counterexample to claim C6: after the third identical utterance
`repeat_count` is 4, not 2 (each repeated turn is counted twice: once by
`_analyze_turn` and once more by `update_from_nlu`), the repetition factor
is already 1.0, not 0.6; and after the fourth utterance the confidence is
0.2 < 0.75, so no REPEATED_QUERIES trigger is returned. -/
theorem repetition_scenario_counterexample :
    stateC6c.repeat_count = 4 ∧
      calc_repetition_factor stateC6c = 1 ∧
      stateC6d.repeat_count = 6 ∧
      (compute_confidence stateC6d).2.2.1 = none := by
  refine ⟨by with_unfolding_all decide, by with_unfolding_all decide, by with_unfolding_all decide, by with_unfolding_all decide⟩

/-- Amended claim C6: after the third utterance `repeat_count` = 4 and the
repetition factor is 1.0; after the fourth, `repeat_count` = 6 and the
factor stays 1.0. In both states the confidence is 0.2 (only the
0.20-weight repetition factor is nonzero), below the 0.75 threshold, so the
engine returns no trigger and no handoff is ever enqueued. -/
theorem repetition_scenario_amended :
    stateC6c.repeat_count = 4 ∧
      calc_repetition_factor stateC6c = 1 ∧
      (compute_confidence stateC6c).1 = 1 / 5 ∧
      (1 : ℚ) / 5 < AUTO_ESCALATE_THRESHOLD ∧
      (compute_confidence stateC6c).2.2.1 = none ∧
      stateC6d.repeat_count = 6 ∧
      calc_repetition_factor stateC6d = 1 ∧
      (compute_confidence stateC6d).1 = 1 / 5 ∧
      (compute_confidence stateC6d).2.2.1 = none ∧
      checkC6d.2.2.queue = [] := by
  refine ⟨by with_unfolding_all decide, by with_unfolding_all decide, by with_unfolding_all decide, by with_unfolding_all decide, by with_unfolding_all decide, by with_unfolding_all decide,
    by with_unfolding_all decide, by with_unfolding_all decide, by with_unfolding_all decide, by with_unfolding_all decide⟩

/-- Claim C7 at the failing input: the tracker lowercases every utterance
before sentiment analysis (`_analyze_turn` passes `content_lower`), so the
uppercase-ratio branch of `_analyze_sentiment` never fires in the pipeline:
"WHERE IS MY MONEY" and "where is my money" both score 0 — equal, not
strictly lower. Called directly on the raw uppercase text, the helper would
subtract 0.3 as the spec describes. -/
theorem caps_penalty_unreachable :
    (analyze_turn stateC7 "WHERE IS MY MONEY").1.sentiment_score = 0 ∧
      (analyze_turn stateC7 "where is my money").1.sentiment_score = 0 ∧
      analyze_sentiment "WHERE IS MY MONEY" stateC7 =
        (.frustrated, -(3 : ℚ) / 10) := by
  refine ⟨by with_unfolding_all decide, by with_unfolding_all decide, by with_unfolding_all decide⟩

/-- Counterexample to claim C8: a QUEUED alert is in a non-terminal status,
yet `complete_handoff` (which searches only the active index) leaves the
manager unchanged — the alert stays QUEUED in the queue and nothing reaches
the completed log. -/
theorem complete_handoff_queued_counterexample :
    alertC8.status = .queued ∧
      complete_handoff mgrC8queued 3 9 (some "done") = mgrC8queued ∧
      mgrC8queued.completed = [] := by
  refine ⟨by with_unfolding_all decide, by with_unfolding_all decide, by with_unfolding_all decide⟩

/-- Amended claim C8: for every alert found in the *active* index (that is,
one in status ASSIGNED or IN_PROGRESS), `complete_handoff` removes it from
the active index and appends it, with status COMPLETED, `completed_at` set
and the resolution recorded, to the completed log, leaving the queue
untouched; when no active alert carries the id — including the QUEUED case —
it logs and is a no-op. -/
theorem complete_handoff_behavior :
    (∀ (m : ManagerState) (aid now : Nat) (res : Option String) (a : HandoffAlert),
        findActive m aid = some a →
          (complete_handoff m aid now res).active =
              m.active.filter (fun x => !(x.id == aid)) ∧
            (complete_handoff m aid now res).completed = m.completed ++
              [{ a with
                 status := .completed, completed_at := some now,
                 resolution := res }] ∧
            (complete_handoff m aid now res).queue = m.queue) ∧
      ∀ (m : ManagerState) (aid now : Nat) (res : Option String),
        findActive m aid = none → complete_handoff m aid now res = m := by
  constructor
  · intro m aid now res a h
    unfold complete_handoff
    rw [h]
    exact ⟨rfl, rfl, rfl⟩
  · intro m aid now res h
    unfold complete_handoff
    rw [h]

/-- Witness for the amended C8 theorem at a concrete active manager. -/
theorem complete_handoff_behavior_witness :
    findActive mgrC8active 4 = some alertC8active ∧
      ((complete_handoff mgrC8active 4 9 (some "resolved")).active =
          mgrC8active.active.filter (fun x => !(x.id == 4)) ∧
        (complete_handoff mgrC8active 4 9 (some "resolved")).completed =
          mgrC8active.completed ++
            [{ alertC8active with
               status := .completed, completed_at := some 9,
               resolution := some "resolved" }] ∧
        (complete_handoff mgrC8active 4 9 (some "resolved")).queue =
          mgrC8active.queue) :=
  ⟨by with_unfolding_all decide, complete_handoff_behavior.1 mgrC8active 4 9 (some "resolved")
    alertC8active (by with_unfolding_all decide)⟩

/-- Witness for C9: instantiating the bounds theorem at a concrete state. -/
theorem engine_weights_sum_and_confidence_bounds_witness :
    check_immediate_escalation stateC9 = none ∧
      (compute_confidence stateC9).1 = weightedSum (computeFactors stateC9) ∧
      InUnit (compute_confidence stateC9).1 :=
  ⟨by decide,
    (engine_weights_sum_and_confidence_bounds.2 stateC9 (by decide)).1,
    (engine_weights_sum_and_confidence_bounds.2 stateC9 (by decide)).2.2.2.2.2.2.2.2⟩

/-! ## Queue ordering lemmas (claim C5) -/

theorem keyLt_true_iff (a b : HandoffAlert) :
    keyLt a b = true ↔
      (priorityRank a.priority < priorityRank b.priority ∨
        (priorityRank a.priority = priorityRank b.priority ∧
          a.created_at < b.created_at)) := by
  simp [keyLt]

theorem keyLt_false_iff (a b : HandoffAlert) :
    keyLt a b = false ↔
      ¬(priorityRank a.priority < priorityRank b.priority ∨
        (priorityRank a.priority = priorityRank b.priority ∧
          a.created_at < b.created_at)) := by
  simp [keyLt]

theorem queueRel_keyLt_false {a b : HandoffAlert} (h : queueRel a b) :
    keyLt b a = false := by
  rw [keyLt_false_iff]
  rcases h.1 with h1 | ⟨heq, hle⟩
  · rintro (h2 | ⟨h2, _⟩) <;> omega
  · rintro (h2 | ⟨_, h2⟩) <;> omega

theorem rank_le_of_queueRel {a b : HandoffAlert} (h : queueRel a b) :
    priorityRank a.priority ≤ priorityRank b.priority := by
  rcases h.1 with h1 | ⟨heq, _⟩ <;> omega

theorem mem_insertAfterLe {x a : HandoffAlert} :
    ∀ {l : List HandoffAlert}, x ∈ insertAfterLe a l ↔ x = a ∨ x ∈ l := by
  intro l
  induction l with
  | nil => simp [insertAfterLe]
  | cons b t ih =>
      unfold insertAfterLe
      cases hkl : keyLt a b
      · simp only [Bool.false_eq_true, if_false, List.mem_cons, ih]
        tauto
      · simp only [if_true, List.mem_cons]

theorem insertAfterLe_append {a : HandoffAlert} :
    ∀ {l : List HandoffAlert}, (∀ x ∈ l, keyLt a x = false) →
      insertAfterLe a l = l ++ [a] := by
  intro l
  induction l with
  | nil => intro _; rfl
  | cons b t ih =>
      intro h
      unfold insertAfterLe
      rw [h b (by simp)]
      simp only [Bool.false_eq_true, if_false, List.cons_append, List.cons.injEq,
        true_and]
      exact ih (fun x hx => h x (by simp [hx]))

theorem stableSortByKey_append_one (l : List HandoffAlert) (a : HandoffAlert) :
    stableSortByKey (l ++ [a]) = insertAfterLe a (stableSortByKey l) := by
  unfold stableSortByKey
  rw [List.foldl_append]
  rfl

theorem stableSortByKey_of_sorted :
    ∀ {l : List HandoffAlert}, l.Pairwise (fun x y => keyLt y x = false) →
      stableSortByKey l = l := by
  intro l
  induction l using List.reverseRecOn with
  | nil => intro _; rfl
  | append_singleton t b ih =>
      intro h
      rw [List.pairwise_append] at h
      obtain ⟨h1, _, h3⟩ := h
      rw [stableSortByKey_append_one, ih h1]
      exact insertAfterLe_append (fun x hx => h3 x hx b (by simp))

theorem pairwise_insertAfterLe {a : HandoffAlert} :
    ∀ {q : List HandoffAlert}, q.Pairwise queueRel →
      (∀ b ∈ q, b.id < a.id) → (∀ b ∈ q, b.created_at ≤ a.created_at) →
      (insertAfterLe a q).Pairwise queueRel := by
  intro q
  induction q with
  | nil =>
      intro _ _ _
      simp [insertAfterLe]
  | cons b t ih =>
      intro hpw hid hcr
      rw [List.pairwise_cons] at hpw
      obtain ⟨hbt, ht⟩ := hpw
      unfold insertAfterLe
      cases hkl : keyLt a b
      · simp only [Bool.false_eq_true, if_false]
        rw [List.pairwise_cons]
        constructor
        · intro x hx
          rcases mem_insertAfterLe.mp hx with rfl | hxt
          · rw [keyLt_false_iff] at hkl
            push_neg at hkl
            obtain ⟨hk1, _⟩ := hkl
            refine ⟨?_, fun _ => hid b (by simp)⟩
            by_cases hbr : priorityRank b.priority < priorityRank x.priority
            · exact Or.inl hbr
            · exact Or.inr ⟨by omega, hcr b (by simp)⟩
          · exact hbt x hxt
        · exact ih ht (fun y hy => hid y (by simp [hy]))
            (fun y hy => hcr y (by simp [hy]))
      · simp only [if_true]
        have hab : priorityRank a.priority < priorityRank b.priority := by
          rw [keyLt_true_iff] at hkl
          rcases hkl with h1 | ⟨heq, hclt⟩
          · exact h1
          · have := hcr b (by simp)
            omega
        rw [List.pairwise_cons]
        constructor
        · intro x hx
          rcases List.mem_cons.mp hx with rfl | hxt
          · exact ⟨Or.inl hab, fun heq => by omega⟩
          · have hbx := rank_le_of_queueRel (hbt x hxt)
            exact ⟨Or.inl (by omega), fun heq => by omega⟩
        · rw [List.pairwise_cons]
          exact ⟨hbt, ht⟩

theorem setPositions_length :
    ∀ (l : List HandoffAlert) (n : Nat), (setPositions l n).length = l.length
  | [], _ => rfl
  | a :: t, n => by
      simp only [setPositions, List.length_cons]
      rw [setPositions_length t (n + 1)]

theorem setPositions_map_pos :
    ∀ (l : List HandoffAlert) (n : Nat),
      (setPositions l n).map (fun a => a.queue_position) =
        (List.range' n l.length).map some
  | [], _ => rfl
  | a :: t, n => by
      simp only [setPositions, List.map_cons]
      rw [setPositions_map_pos t (n + 1)]
      rfl

theorem mem_setPositions :
    ∀ {l : List HandoffAlert} {n : Nat} {x : HandoffAlert}, x ∈ setPositions l n →
      ∃ y ∈ l, x.id = y.id ∧ x.created_at = y.created_at ∧
        x.priority = y.priority := by
  intro l
  induction l with
  | nil =>
      intro n x h
      simp [setPositions] at h
  | cons a t ih =>
      intro n x h
      simp only [setPositions, List.mem_cons] at h
      rcases h with rfl | h
      · exact ⟨a, by simp, rfl, rfl, rfl⟩
      · obtain ⟨y, hy, h1⟩ := ih h
        exact ⟨y, by simp [hy], h1⟩

theorem pairwise_setPositions :
    ∀ {l : List HandoffAlert}, l.Pairwise queueRel → ∀ (n : Nat),
      (setPositions l n).Pairwise queueRel := by
  intro l
  induction l with
  | nil =>
      intro _ n
      simp [setPositions]
  | cons a t ih =>
      intro h n
      rw [List.pairwise_cons] at h
      obtain ⟨ha, ht⟩ := h
      simp only [setPositions]
      rw [List.pairwise_cons]
      refine ⟨?_, ih ht (n + 1)⟩
      intro x hx
      obtain ⟨y, hy, h1, h2, h3⟩ := mem_setPositions hx
      have hay := ha y hy
      unfold queueRel at hay ⊢
      rw [h1, h2, h3]
      exact hay

theorem waitUpdate_fields (aid w : Nat) (x : HandoffAlert) :
    (waitUpdate aid w x).priority = x.priority ∧
      (waitUpdate aid w x).created_at = x.created_at ∧
      (waitUpdate aid w x).id = x.id ∧
      (waitUpdate aid w x).queue_position = x.queue_position := by
  unfold waitUpdate
  by_cases hx : (x.id == aid) = true <;> simp [hx]

theorem pairwise_map_preserve {f : HandoffAlert → HandoffAlert}
    (hf : ∀ x, (f x).priority = x.priority ∧ (f x).created_at = x.created_at ∧
      (f x).id = x.id)
    {l : List HandoffAlert} (h : l.Pairwise queueRel) :
    (l.map f).Pairwise queueRel := by
  rw [List.pairwise_map]
  refine h.imp ?_
  intro a b hab
  unfold queueRel at hab ⊢
  rw [(hf a).1, (hf a).2.1, (hf a).2.2, (hf b).1, (hf b).2.1, (hf b).2.2]
  exact hab

theorem map_pos_preserve {f : HandoffAlert → HandoffAlert}
    (hf : ∀ x, (f x).queue_position = x.queue_position) (l : List HandoffAlert) :
    (l.map f).map (fun a => a.queue_position) = l.map (fun a => a.queue_position) := by
  rw [List.map_map]
  exact List.map_congr_left (fun a _ => hf a)

theorem mem_map_fields {f : HandoffAlert → HandoffAlert}
    (hf : ∀ x, (f x).created_at = x.created_at ∧ (f x).id = x.id)
    {l : List HandoffAlert} {x : HandoffAlert} (h : x ∈ l.map f) :
    ∃ y ∈ l, x.id = y.id ∧ x.created_at = y.created_at := by
  obtain ⟨y, hy, rfl⟩ := List.mem_map.mp h
  exact ⟨y, hy, (hf y).2, (hf y).1⟩

theorem trigger_queue_update_inv (q : List HandoffAlert) (a0 : HandoffAlert)
    (hpw : q.Pairwise queueRel)
    (hid : ∀ b ∈ q, b.id < a0.id)
    (hcr : ∀ b ∈ q, b.created_at ≤ a0.created_at) :
    (trigger_queue_update q a0).Pairwise queueRel ∧
      (trigger_queue_update q a0).map (fun a => a.queue_position) =
        (List.range' 1 (trigger_queue_update q a0).length).map some ∧
      ∀ x ∈ trigger_queue_update q a0,
        (x.id = a0.id ∧ x.created_at = a0.created_at) ∨
          ∃ y ∈ q, x.id = y.id ∧ x.created_at = y.created_at := by
  have hsorted : q.Pairwise (fun x y => keyLt y x = false) :=
    hpw.imp queueRel_keyLt_false
  have hsort_eq : stableSortByKey (q ++ [a0]) = insertAfterLe a0 q := by
    rw [stableSortByKey_append_one, stableSortByKey_of_sorted hsorted]
  have hq1pw : (setPositions (insertAfterLe a0 q) 1).Pairwise queueRel :=
    pairwise_setPositions (pairwise_insertAfterLe hpw hid hcr) 1
  have hw : trigger_queue_update q a0 =
      (setPositions (insertAfterLe a0 q) 1).map
        (waitUpdate a0.id ((queue_add q a0).2 * WAIT_TIME_PER_POSITION)) := by
    unfold trigger_queue_update queue_add
    rw [hsort_eq]
  rw [hw]
  refine ⟨?_, ?_, ?_⟩
  · exact pairwise_map_preserve
      (fun x => ⟨(waitUpdate_fields _ _ x).1, (waitUpdate_fields _ _ x).2.1,
        (waitUpdate_fields _ _ x).2.2.1⟩) hq1pw
  · rw [map_pos_preserve (fun x => (waitUpdate_fields _ _ x).2.2.2),
      setPositions_map_pos, List.length_map, setPositions_length]
  · intro x hx
    obtain ⟨y1, hy1, hxid, hxcr⟩ := mem_map_fields
      (fun x => ⟨(waitUpdate_fields _ _ x).2.1, (waitUpdate_fields _ _ x).2.2.1⟩) hx
    obtain ⟨y2, hy2, h1, h2, _⟩ := mem_setPositions hy1
    rcases mem_insertAfterLe.mp hy2 with rfl | hy3
    · exact Or.inl ⟨by rw [hxid, h1], by rw [hxcr, h2]⟩
    · exact Or.inr ⟨y2, hy3, by rw [hxid, h1], by rw [hxcr, h2]⟩

theorem trigger_handoff_inv {c : Nat} (now : Nat) (hc : c ≤ now)
    (m : ManagerState) (s : ConversationState) (t : HandoffTrigger)
    (p : HandoffPriority) (h : QueueInv c m) :
    QueueInv now (trigger_handoff m s t p now).2.1 := by
  obtain ⟨hpw, hid, hcr, hpos⟩ := h
  have hq : (trigger_handoff m s t p now).2.1.queue =
      trigger_queue_update m.queue (new_alert m s t p now) := rfl
  have hn : (trigger_handoff m s t p now).2.1.next_id = m.next_id + 1 := rfl
  have ha0id : (new_alert m s t p now).id = m.next_id := rfl
  have ha0cr : (new_alert m s t p now).created_at = now := rfl
  have key := trigger_queue_update_inv m.queue (new_alert m s t p now) hpw
    (fun b hb => by rw [ha0id]; exact hid b hb)
    (fun b hb => by rw [ha0cr]; exact le_trans (hcr b hb) hc)
  refine ⟨?_, ?_, ?_, ?_⟩
  · rw [hq]
    exact key.1
  · intro a hamem
    rw [hq] at hamem
    rw [hn]
    rcases key.2.2 a hamem with ⟨hida, _⟩ | ⟨y, hy, hida, _⟩
    · rw [hida, ha0id]
      omega
    · have := hid y hy
      rw [hida]
      omega
  · intro a hamem
    rw [hq] at hamem
    rcases key.2.2 a hamem with ⟨_, hcra⟩ | ⟨y, hy, _, hcra⟩
    · rw [hcra, ha0cr]
    · rw [hcra]
      exact le_trans (hcr y hy) hc
  · rw [hq]
    exact key.2.1

theorem assign_agent_inv {c : Nat} (m : ManagerState) (aid : Nat)
    (agent : String) (now : Nat) (h : QueueInv c m) :
    QueueInv c (assign_agent m aid agent now).2 := by
  obtain ⟨hpw, hid, hcr, hpos⟩ := h
  unfold assign_agent
  cases hf : m.queue.find? (fun a => a.id == aid) with
  | none => exact ⟨hpw, hid, hcr, hpos⟩
  | some alert =>
      dsimp only
      have hrem : queue_remove m.queue aid =
          setPositions (m.queue.filter (fun x => !(x.id == aid))) 1 := rfl
      refine ⟨?_, ?_, ?_, ?_⟩
      · rw [hrem]
        exact pairwise_setPositions (hpw.sublist (List.filter_sublist _)) 1
      · intro a ha
        rw [hrem] at ha
        obtain ⟨y, hy, h1, _, _⟩ := mem_setPositions ha
        rw [h1]
        exact hid y (List.mem_of_mem_filter hy)
      · intro a ha
        rw [hrem] at ha
        obtain ⟨y, hy, _, h2, _⟩ := mem_setPositions ha
        rw [h2]
        exact hcr y (List.mem_of_mem_filter hy)
      · rw [hrem, setPositions_map_pos, setPositions_length]

theorem queueInv_mono {c c' : Nat} (hcc : c ≤ c') {m : ManagerState}
    (h : QueueInv c m) : QueueInv c' m :=
  ⟨h.1, h.2.1, fun a ha => le_trans (h.2.2.1 a ha) hcc, h.2.2.2⟩

theorem runOps_inv : ∀ (ops : List MgrOp) (c : Nat) (m : ManagerState),
    QueueInv c m → okOps c ops = true → ∃ c', QueueInv c' (runOps m ops)
  | [], c, m, h, _ => ⟨c, h⟩
  | op :: rest, c, m, h, hok => by
      simp only [okOps, Bool.and_eq_true, decide_eq_true_eq] at hok
      obtain ⟨h1, h2⟩ := hok
      simp only [runOps]
      cases op with
      | trig call room t p now =>
          exact runOps_inv rest now _
            (trigger_handoff_inv now h1 m (initState call room) t p h) h2
      | assign aid agent now =>
          exact runOps_inv rest now _
            (queueInv_mono h1 (assign_agent_inv m aid agent now h)) h2

/-- Claim C5: after any sequence of queue mutations (enqueues via
`trigger_handoff`, removals via `assign_agent`) run under a monotone clock,
the N alerts remaining in the queue carry `queue_position` values 1..N in
queue order (in particular a permutation of 1..N respecting the queue
order), and the queue is pairwise ordered by `queueRel`: non-decreasing in
(priority_rank, created_at) with URGENT < HIGH < MEDIUM < LOW, and alerts of
equal priority in enqueue order (increasing allocation id). -/
theorem handoff_queue_position_consistency (ops : List MgrOp)
    (h : okOps 0 ops = true) :
    (runOps emptyManager ops).queue.map (fun a => a.queue_position) =
        (List.range' 1 (runOps emptyManager ops).queue.length).map some ∧
      (runOps emptyManager ops).queue.Pairwise queueRel := by
  obtain ⟨c', hc⟩ := runOps_inv ops 0 emptyManager
    ⟨List.Pairwise.nil,
      fun a ha => absurd ha (List.not_mem_nil a),
      fun a ha => absurd ha (List.not_mem_nil a), rfl⟩ h
  exact ⟨hc.2.2.2, hc.1⟩

/-- Witness for C5 at the spec's S6 scenario: enqueue A (MEDIUM), B (URGENT),
C (HIGH), D (MEDIUM), then assign B. -/
theorem handoff_queue_position_consistency_witness :
    okOps 0 opsC5 = true ∧
      ((runOps emptyManager opsC5).queue.map (fun a => a.queue_position) =
          (List.range' 1 (runOps emptyManager opsC5).queue.length).map some ∧
        (runOps emptyManager opsC5).queue.Pairwise queueRel) :=
  ⟨by decide, handoff_queue_position_consistency opsC5 (by decide)⟩

end SmartAgent
